import Mathlib

/-
Verification of the two file utilities of this repository:
Error_handling.py (filename validation, access checking, bounded-retry read)
and Read_write.py (read, write, content transformation, orchestration).

Python strings are modelled as Lean String (a wrapper around List Char);
character-level operations (upper, lower, strip, split) are modelled
character-wise over the ASCII range, which covers the fixed messages and
separators used by the two programs. Filesystem state and I/O outcomes are
modelled by explicit oracle records passed to the embedded functions;
printing is modelled by returning the printed diagnostic strings.
-/

namespace PyStr

/-- Whitespace characters stripped by the strip method (ASCII range). -/
def isPySpace (c : Char) : Bool :=
  c == ' ' || c == '\t' || c == '\n' || c == '\r' || c == '\x0b' || c == '\x0c'

/-- Model of the strip method: remove leading and trailing whitespace. -/
def pyStrip (s : String) : String :=
  String.mk (((s.data.dropWhile isPySpace).reverse.dropWhile isPySpace).reverse)

/-- Model of the lower method, character-wise. -/
def pyLower (s : String) : String :=
  String.mk (s.data.map Char.toLower)

/-- Model of the upper method, character-wise. -/
def pyUpper (s : String) : String :=
  String.mk (s.data.map Char.toUpper)

/-- Model of the capitalize method: first character uppercased, rest lowercased. -/
def pyCapitalizeData : List Char → List Char
  | [] => []
  | c :: rest => c.toUpper :: rest.map Char.toLower

/-- Model of the split method with a one-character separator. -/
def splitOnChar (sep : Char) : List Char → List (List Char)
  | [] => [[]]
  | c :: rest =>
    if c = sep then
      [] :: splitOnChar sep rest
    else
      match splitOnChar sep rest with
      | [] => [[c]]
      | h :: t => (c :: h) :: t

/-- Model of the join method with a one-character separator. -/
def joinWithChar (sep : Char) : List (List Char) → List Char
  | [] => []
  | [l] => l
  | l :: l2 :: ls => l ++ sep :: joinWithChar sep (l2 :: ls)

theorem splitOnChar_ne_nil (sep : Char) (l : List Char) : splitOnChar sep l ≠ [] := by
  cases l with
  | nil => simp [splitOnChar]
  | cons c rest =>
    simp only [splitOnChar]
    by_cases hc : c = sep
    · simp [hc]
    · simp only [if_neg hc]
      cases splitOnChar sep rest <;> simp

theorem joinWithChar_splitOnChar (sep : Char) (l : List Char) :
    joinWithChar sep (splitOnChar sep l) = l := by
  induction l with
  | nil => rfl
  | cons c rest ih =>
    simp only [splitOnChar]
    by_cases hc : c = sep
    · simp only [if_pos hc]
      obtain ⟨h, t, ht⟩ : ∃ h t, splitOnChar sep rest = h :: t := by
        cases he : splitOnChar sep rest with
        | nil => exact absurd he (splitOnChar_ne_nil sep rest)
        | cons h t => exact ⟨h, t, rfl⟩
      rw [ht] at ih ⊢
      simp only [joinWithChar] at ih ⊢
      rw [ih, hc]
      simp
    · simp only [if_neg hc]
      cases he : splitOnChar sep rest with
      | nil => exact absurd he (splitOnChar_ne_nil sep rest)
      | cons h t =>
        rw [he] at ih
        cases t with
        | nil =>
          simp only [joinWithChar] at ih ⊢
          rw [ih]
        | cons t1 t2 =>
          simp only [joinWithChar] at ih ⊢
          rw [List.cons_append, ih]

theorem not_mem_of_mem_splitOnChar (sep : Char) (l : List Char) :
    ∀ a ∈ splitOnChar sep l, sep ∉ a := by
  induction l with
  | nil =>
    intro a ha
    simp [splitOnChar] at ha
    simp [ha]
  | cons c rest ih =>
    intro a ha
    simp only [splitOnChar] at ha
    by_cases hc : c = sep
    · rw [if_pos hc] at ha
      rcases List.mem_cons.mp ha with h | h
      · simp [h]
      · exact ih a h
    · rw [if_neg hc] at ha
      cases he : splitOnChar sep rest with
      | nil => exact absurd he (splitOnChar_ne_nil sep rest)
      | cons h t =>
        rw [he] at ha ih
        rcases List.mem_cons.mp ha with h1 | h1
        · subst h1
          intro hmem
          rcases List.mem_cons.mp hmem with h2 | h2
          · exact hc h2.symm
          · exact ih h (List.mem_cons_self h t) h2
        · exact ih a (List.mem_cons_of_mem h h1)

theorem splitOnChar_of_not_mem (sep : Char) (a : List Char) (h : sep ∉ a) :
    splitOnChar sep a = [a] := by
  induction a with
  | nil => rfl
  | cons c rest ih =>
    simp only [splitOnChar]
    have hc : ¬ c = sep := fun he => h (he ▸ List.mem_cons_self c rest)
    rw [if_neg hc, ih (fun hm => h (List.mem_cons_of_mem c hm))]

theorem splitOnChar_append_sep (sep : Char) (a r : List Char) (h : sep ∉ a) :
    splitOnChar sep (a ++ sep :: r) = a :: splitOnChar sep r := by
  induction a with
  | nil => simp [splitOnChar]
  | cons c rest ih =>
    have hc : ¬ c = sep := fun he => h (he ▸ List.mem_cons_self c rest)
    simp only [List.cons_append, splitOnChar, if_neg hc, List.append_eq]
    rw [ih (fun hm => h (List.mem_cons_of_mem c hm))]

theorem splitOnChar_joinWithChar (sep : Char) (ll : List (List Char))
    (h : ∀ a ∈ ll, sep ∉ a) (hne : ll ≠ []) :
    splitOnChar sep (joinWithChar sep ll) = ll := by
  induction ll with
  | nil => exact absurd rfl hne
  | cons a t ih =>
    cases t with
    | nil =>
      simp only [joinWithChar]
      exact splitOnChar_of_not_mem sep a (h a (List.mem_cons_self a []))
    | cons b t2 =>
      simp only [joinWithChar]
      rw [splitOnChar_append_sep sep a _ (h a (List.mem_cons_self a (b :: t2)))]
      rw [ih (fun x hx => h x (List.mem_cons_of_mem a hx)) (by simp)]

theorem splitOnChar_eq_nil_singleton (sep : Char) (l : List Char)
    (h : splitOnChar sep l = [[]]) : l = [] := by
  have := joinWithChar_splitOnChar sep l
  rw [h] at this
  simpa [joinWithChar] using this.symm

end PyStr

namespace ErrorHandling

open PyStr

/-- The quote character used by the diagnostic messages of the program. -/
def qc : String := "\x27"

/-- The fixed set of forbidden filename characters, in source order
(invalid_chars in Error_handling.py, line 44). -/
def invalid_chars : List Char := ['<', '>', ':', '"', '/', '\\', '|', '?', '*']

/-- The for-loop of validate_filename (lines 45 to 48): the first character
of the list that occurs in the filename, if any. -/
def firstInvalidChar : List Char → String → Option Char
  | [], _ => none
  | c :: rest, filename =>
    if filename.data.contains c then some c else firstInvalidChar rest filename

/-- Diagnostic printed when the filename is empty after stripping. -/
def emptyMsg : String := "Error: Filename cannot be empty."

/-- Diagnostic printed when the filename holds a forbidden character. -/
def invalidCharMsg (c : Char) : String :=
  "Error: Filename contains invalid character " ++ qc ++ String.mk [c] ++ qc ++ "."

/-- validate_filename (Error_handling.py, lines 28 to 50). Returns the
boolean result together with the list of printed diagnostic lines. -/
def validate_filename (filename : String) : Bool × List String :=
  if pyStrip filename = "" then
    (false, [emptyMsg])
  else
    match firstInvalidChar invalid_chars filename with
    | some c => (false, [invalidCharMsg c])
    | none => (true, [])

/-- Abstract filesystem as seen through the queries check_file_access makes:
os.path.exists, os.path.isfile, os.access with R_OK, os.access with W_OK.
check_file_access only calls these queries and returns a pair; it performs
no mutating operation, which the embedding reflects by not producing a new
FileSystem value. -/
structure FileSystem where
  path_exists : String → Bool
  isfile : String → Bool
  access_read : String → Bool
  access_write : String → Bool

/-- Model of os.path.dirname for POSIX paths: the prefix up to the last
slash, with trailing slashes stripped unless the result is all slashes. -/
def dirname (p : String) : String :=
  let l := p.data
  let head := l.take (l.length - (l.reverse.takeWhile (fun c => c ≠ '/')).length)
  if head ≠ [] ∧ ¬ (head.all (fun c => c == '/')) then
    String.mk ((head.reverse.dropWhile (fun c => c == '/')).reverse)
  else
    String.mk head

/-- Read-mode message: path does not exist. -/
def msgNotExist (filename : String) : String :=
  "The file " ++ qc ++ filename ++ qc ++ " does not exist."

/-- Read-mode message: path is not a regular file. -/
def msgNotFile (filename : String) : String :=
  qc ++ filename ++ qc ++ " is not a file."

/-- Read-mode message: no read permission. -/
def msgNoRead (filename : String) : String :=
  "You don" ++ qc ++ "t have permission to read " ++ qc ++ filename ++ qc ++ "."

/-- Write-mode message: no write permission on an existing path. -/
def msgNoWrite (filename : String) : String :=
  "You don" ++ qc ++ "t have permission to write to " ++ qc ++ filename ++ qc ++ "."

/-- Write-mode message: no write permission on the containing directory. -/
def msgNoWriteDir (filename : String) : String :=
  "You don" ++ qc ++ "t have permission to write to the directory containing " ++
    qc ++ filename ++ qc ++ "."

/-- Message returned when every check passes. -/
def msgPass : String := "File access check passed."

/-- check_file_access (Error_handling.py, lines 53 to 88). -/
def check_file_access (fs : FileSystem) (filename : String) (mode : String) :
    Bool × String :=
  if mode = "r" then
    if ¬ fs.path_exists filename then
      (false, msgNotExist filename)
    else if ¬ fs.isfile filename then
      (false, msgNotFile filename)
    else if ¬ fs.access_read filename then
      (false, msgNoRead filename)
    else
      (true, msgPass)
  else if mode = "w" then
    if fs.path_exists filename then
      if ¬ fs.access_write filename then
        (false, msgNoWrite filename)
      else
        (true, msgPass)
    else
      if ¬ fs.access_write (if dirname filename = "" then "." else dirname filename) then
        (false, msgNoWriteDir filename)
      else
        (true, msgPass)
  else
    (true, msgPass)

/-- Outcome of one attempt of the open-and-read body of
read_file_with_retries, as classified by its except clauses. -/
inductive ReadOutcome where
  | success (content : String)
  | fileNotFound
  | permissionDenied
  | unicodeDecodeError
  | isADirectory
  | ioError (msg : String)
  | otherError (msg : String)
deriving DecidableEq

/-- Result of the Python function: returned string, raised FileReadError
message, or the implicit None returned when the while loop never produces
a result (max_retries equal to zero). -/
inductive PyResult where
  | ok (content : String)
  | error (msg : String)
  | noneResult
deriving DecidableEq

/-- Result together with instrumentation: how many open attempts were made
and how many times time.sleep was called. -/
structure RetryResult where
  result : PyResult
  opens : Nat
  sleeps : Nat
deriving DecidableEq

/-- Decimal rendering of a natural number (structural recursion so that
concrete instances reduce in the kernel). -/
def natDigits : Nat → Nat → List Char
  | 0, _ => []
  | fuel + 1, n =>
    if n < 10 then [Char.ofNat (48 + n)]
    else natDigits fuel (n / 10) ++ [Char.ofNat (48 + n % 10)]

/-- Decimal rendering of a natural number as a string. -/
def natStr (n : Nat) : String := String.mk (natDigits (n + 1) n)

/-- FileReadError message for FileNotFoundError (line 114). -/
def readMsgNotFound (filename : String) : String :=
  "The file " ++ qc ++ filename ++ qc ++ " was not found."

/-- FileReadError message for PermissionError (line 116). -/
def readMsgPermission (filename : String) : String :=
  "Permission denied when trying to read " ++ qc ++ filename ++ qc ++ "."

/-- FileReadError message for UnicodeDecodeError (line 118). -/
def readMsgDecode (filename : String) : String :=
  "The file " ++ qc ++ filename ++ qc ++
    " contains characters that cannot be decoded. Try a different encoding."

/-- FileReadError message for IsADirectoryError (line 120). -/
def readMsgIsDir (filename : String) : String :=
  qc ++ filename ++ qc ++ " is a directory, not a file."

/-- FileReadError message raised when the retry budget is exhausted (line 132). -/
def readMsgExhausted (filename : String) (max_retries : Nat) (last_error : String) :
    String :=
  "Failed to read " ++ qc ++ filename ++ qc ++ " after " ++ natStr max_retries ++
    " attempts. Last error: " ++ last_error

/-- FileReadError message for an unclassified exception (line 135). -/
def readMsgUnexpected (filename : String) (cause : String) : String :=
  "Unexpected error reading " ++ qc ++ filename ++ qc ++ ": " ++ cause

/-- The while loop of read_file_with_retries (lines 109 to 135). The oracle
gives the outcome of each successive open attempt; attempts is the loop
counter (equal to the number of opens already made, since any non-transient
outcome leaves the loop). Returns the result with the instrumentation
counters for opens and sleeps. -/
def read_loop (oracle : Nat → ReadOutcome) (filename : String)
    (max_retries attempts : Nat) (last_error : Option String) (sleeps : Nat) :
    RetryResult :=
  if attempts < max_retries then
    match oracle attempts with
    | .success content => ⟨.ok content, attempts + 1, sleeps⟩
    | .fileNotFound => ⟨.error (readMsgNotFound filename), attempts + 1, sleeps⟩
    | .permissionDenied => ⟨.error (readMsgPermission filename), attempts + 1, sleeps⟩
    | .unicodeDecodeError => ⟨.error (readMsgDecode filename), attempts + 1, sleeps⟩
    | .isADirectory => ⟨.error (readMsgIsDir filename), attempts + 1, sleeps⟩
    | .ioError m =>
      if h : attempts + 1 < max_retries then
        read_loop oracle filename max_retries (attempts + 1) (some m) (sleeps + 1)
      else
        ⟨.error (readMsgExhausted filename max_retries m), attempts + 1, sleeps⟩
    | .otherError m => ⟨.error (readMsgUnexpected filename m), attempts + 1, sleeps⟩
  else
    ⟨.noneResult, attempts, sleeps⟩
termination_by max_retries - attempts
decreasing_by omega

/-- read_file_with_retries (Error_handling.py, lines 91 to 135), with the
open-and-read outcomes supplied by an oracle indexed by attempt number. -/
def read_file_with_retries (oracle : Nat → ReadOutcome) (filename : String)
    (max_retries : Nat) : RetryResult :=
  read_loop oracle filename max_retries 0 none 0

end ErrorHandling

namespace ReadWrite

open PyStr

/-- The quote character used by the diagnostic messages of the program. -/
def qc : String := "\x27"

/-- Outcome of the open-and-read body of read_file, as classified by its
except clauses. -/
inductive ReadFileOutcome where
  | ok (content : String)
  | fileNotFound
  | permissionError
  | otherError (msg : String)
deriving DecidableEq

/-- Outcome of the open-and-write body of write_file, as classified by its
except clauses. -/
inductive WriteOutcome where
  | ok
  | permissionError
  | otherError (msg : String)
deriving DecidableEq

/-- Abstract world of Read_write.py: what each read would return, whether a
path exists (os.path.exists), whether a write to a path would succeed, and
the stored content of each file. -/
structure World where
  readOutcome : String → ReadFileOutcome
  path_exists : String → Bool
  writeOutcome : String → WriteOutcome
  files : String → Option String

/-- read_file (Read_write.py, lines 11 to 37): content on success, none on
any failure (the function prints a diagnostic and returns None). -/
def read_file (w : World) (filename : String) : Option String :=
  match w.readOutcome filename with
  | .ok content => some content
  | .fileNotFound => none
  | .permissionError => none
  | .otherError _ => none

/-- Diagnostic printed by write_file on PermissionError (line 60). -/
def writeMsgPermission (filename : String) : String :=
  "Error: You don" ++ qc ++ "t have permission to write to " ++ qc ++ filename ++
    qc ++ "."

/-- Diagnostic printed by write_file on any other exception (line 63). -/
def writeMsgUnexpected (filename : String) (cause : String) : String :=
  "Unexpected error writing to " ++ qc ++ filename ++ qc ++ ": " ++ cause

/-- write_file (Read_write.py, lines 40 to 64): on success the target file
is created or overwritten with the content and True is returned; on
PermissionError or any other exception the world is unchanged, a diagnostic
is printed (third component) and False is returned — no exception escapes. -/
def write_file (w : World) (filename content : String) :
    World × Bool × Option String :=
  match w.writeOutcome filename with
  | .ok =>
    ({ w with
        files := fun n => if n = filename then some content else w.files n,
        path_exists := fun n => if n = filename then true else w.path_exists n },
      true, none)
  | .permissionError => (w, false, some (writeMsgPermission filename))
  | .otherError m => (w, false, some (writeMsgUnexpected filename m))

/-- modify_content (Read_write.py, lines 67 to 91). -/
def modify_content (content : String) (modification_type : String) : String :=
  if content = "" then
    ""
  else if modification_type = "uppercase" then
    pyUpper content
  else if modification_type = "lowercase" then
    pyLower content
  else if modification_type = "capitalize_lines" then
    String.mk (joinWithChar '\n' ((splitOnChar '\n' content.data).map pyCapitalizeData))
  else if modification_type = "reverse_lines" then
    String.mk (joinWithChar '\n' ((splitOnChar '\n' content.data).reverse))
  else
    pyUpper content

/-- get_modification_choice (Read_write.py, lines 94 to 116): the mapping
from the entered choice to the modification type, defaulting to uppercase. -/
def get_modification_choice (choice : String) : String :=
  if choice = "1" then "uppercase"
  else if choice = "2" then "lowercase"
  else if choice = "3" then "capitalize_lines"
  else if choice = "4" then "reverse_lines"
  else "uppercase"

/-- main (Read_write.py, lines 119 to 150), with the four interactive
inputs passed as arguments in prompt order. Returns the final world and
the list of write_file calls made (filename and content written). -/
def main (w : World) (input_filename choice output_filename overwrite : String) :
    World × List (String × String) :=
  match read_file w input_filename with
  | none => (w, [])
  | some content =>
    let mod_type := get_modification_choice choice
    let modified_content := modify_content content mod_type
    if w.path_exists output_filename ∧ pyLower overwrite ≠ "y" then
      (w, [])
    else
      ((write_file w output_filename modified_content).1,
        [(output_filename, modified_content)])

end ReadWrite

namespace ErrorHandling

theorem read_loop_success (oracle : Nat → ReadOutcome) (filename : String)
    (max_retries N : Nat) (content : String) (m : Nat → String)
    (a s : Nat) (last : Option String)
    (ha : a ≤ N - 1) (hN : 1 ≤ N) (hNmax : N ≤ max_retries)
    (htrans : ∀ i, i < N - 1 → oracle i = ReadOutcome.ioError (m i))
    (hsucc : oracle (N - 1) = ReadOutcome.success content) :
    read_loop oracle filename max_retries a last s =
      ⟨PyResult.ok content, N, s + (N - 1 - a)⟩ := by
  unfold read_loop
  split
  · split
    · next c heq =>
      have haeq : a = N - 1 := by
        by_contra hne
        have : a < N - 1 := by omega
        rw [htrans a this] at heq
        cases heq
      subst haeq
      rw [hsucc] at heq
      cases heq
      have h1 : N - 1 + 1 = N := by omega
      have h2 : s + (N - 1 - (N - 1)) = s := by omega
      rw [h1, h2]
    · next heq =>
      exfalso
      by_cases hend : a = N - 1
      · rw [hend, hsucc] at heq; cases heq
      · rw [htrans a (by omega)] at heq; cases heq
    · next heq =>
      exfalso
      by_cases hend : a = N - 1
      · rw [hend, hsucc] at heq; cases heq
      · rw [htrans a (by omega)] at heq; cases heq
    · next heq =>
      exfalso
      by_cases hend : a = N - 1
      · rw [hend, hsucc] at heq; cases heq
      · rw [htrans a (by omega)] at heq; cases heq
    · next heq =>
      exfalso
      by_cases hend : a = N - 1
      · rw [hend, hsucc] at heq; cases heq
      · rw [htrans a (by omega)] at heq; cases heq
    · next mij heq =>
      have hlt : a < N - 1 := by
        by_contra hne
        have : a = N - 1 := by omega
        rw [this, hsucc] at heq
        cases heq
      split
      · rw [read_loop_success oracle filename max_retries N content m
          (a + 1) (s + 1) (some mij) (by omega) hN hNmax htrans hsucc]
        have h2 : s + 1 + (N - 1 - (a + 1)) = s + (N - 1 - a) := by omega
        rw [h2]
      · next hge => exact absurd (by omega : a + 1 < max_retries) hge
    · next mij heq =>
      exfalso
      by_cases hend : a = N - 1
      · rw [hend, hsucc] at heq; cases heq
      · rw [htrans a (by omega)] at heq; cases heq
  · next hge => exact absurd (by omega : a < max_retries) hge
termination_by max_retries - a
decreasing_by omega

theorem read_loop_exhaust (oracle : Nat → ReadOutcome) (filename : String)
    (max_retries : Nat) (m : Nat → String) (a s : Nat) (last : Option String)
    (ha : a < max_retries)
    (htrans : ∀ i, i < max_retries → oracle i = ReadOutcome.ioError (m i)) :
    read_loop oracle filename max_retries a last s =
      ⟨PyResult.error (readMsgExhausted filename max_retries (m (max_retries - 1))),
        max_retries, s + (max_retries - 1 - a)⟩ := by
  unfold read_loop
  split
  · split
    · next c heq => rw [htrans a ha] at heq; cases heq
    · next heq => rw [htrans a ha] at heq; cases heq
    · next heq => rw [htrans a ha] at heq; cases heq
    · next heq => rw [htrans a ha] at heq; cases heq
    · next heq => rw [htrans a ha] at heq; cases heq
    · next mij heq =>
      have hm : mij = m a := by
        rw [htrans a ha] at heq
        cases heq
        rfl
      split
      · next hlt =>
        rw [read_loop_exhaust oracle filename max_retries m
          (a + 1) (s + 1) (some mij) hlt htrans]
        have h2 : s + 1 + (max_retries - 1 - (a + 1)) = s + (max_retries - 1 - a) := by
          omega
        rw [h2]
      · next hge =>
        have haeq : a = max_retries - 1 := by omega
        have h1 : a + 1 = max_retries := by omega
        have h2 : s + (max_retries - 1 - a) = s := by omega
        rw [hm, h1, h2, haeq]
    · next mij heq => rw [htrans a ha] at heq; cases heq
  · next hge => exact absurd ha hge
termination_by max_retries - a
decreasing_by omega

theorem read_loop_ne_none (oracle : Nat → ReadOutcome) (filename : String)
    (max_retries a s : Nat) (last : Option String) (ha : a < max_retries) :
    (read_loop oracle filename max_retries a last s).result ≠ PyResult.noneResult := by
  unfold read_loop
  split
  · split
    · intro h; cases h
    · intro h; cases h
    · intro h; cases h
    · intro h; cases h
    · intro h; cases h
    · next mij heq =>
      split
      · next hlt =>
        exact read_loop_ne_none oracle filename max_retries (a + 1) (s + 1) (some mij) hlt
      · intro h; cases h
    · intro h; cases h
  · next hge => exact absurd ha hge
termination_by max_retries - a
decreasing_by omega

/-- C1: if the first N - 1 attempts fail with transient I/O errors and the
Nth attempt succeeds, with N at most max_retries, then read_file_with_retries
returns the full content after exactly N open attempts (and N - 1 sleeps);
if every attempt up to the budget fails transiently, it raises a
FileReadError whose message reports exactly max_retries attempts and the
last observed cause, after exactly max_retries open attempts. -/
theorem c1_retry_read (oracle : Nat → ReadOutcome) (filename : String)
    (max_retries N : Nat) (content : String) (m : Nat → String) :
    (1 ≤ N → N ≤ max_retries →
      (∀ i, i < N - 1 → oracle i = ReadOutcome.ioError (m i)) →
      oracle (N - 1) = ReadOutcome.success content →
      read_file_with_retries oracle filename max_retries =
        ⟨PyResult.ok content, N, N - 1⟩) ∧
    (1 ≤ max_retries →
      (∀ i, i < max_retries → oracle i = ReadOutcome.ioError (m i)) →
      read_file_with_retries oracle filename max_retries =
        ⟨PyResult.error
            (readMsgExhausted filename max_retries (m (max_retries - 1))),
          max_retries, max_retries - 1⟩) := by
  constructor
  · intro hN hNmax htrans hsucc
    unfold read_file_with_retries
    rw [read_loop_success oracle filename max_retries N content m 0 0 none
      (by omega) hN hNmax htrans hsucc]
    have h2 : 0 + (N - 1 - 0) = N - 1 := by omega
    rw [h2]
  · intro hmax htrans
    unfold read_file_with_retries
    rw [read_loop_exhaust oracle filename max_retries m 0 0 none (by omega) htrans]
    have h2 : 0 + (max_retries - 1 - 0) = max_retries - 1 := by omega
    rw [h2]

/-- Witness for C1: a read that fails transiently once then succeeds on the
second of three attempts, and a read whose three attempts all fail
transiently. -/
theorem c1_retry_read_witness :
    read_file_with_retries
        (fun i => if i = 0 then ReadOutcome.ioError "disk busy"
          else ReadOutcome.success "data") "f.txt" 3 =
      ⟨PyResult.ok "data", 2, 1⟩ ∧
    read_file_with_retries (fun _ => ReadOutcome.ioError "disk busy") "f.txt" 3 =
      ⟨PyResult.error (readMsgExhausted "f.txt" 3 "disk busy"), 3, 2⟩ :=
  ⟨(c1_retry_read
      (fun i => if i = 0 then ReadOutcome.ioError "disk busy"
        else ReadOutcome.success "data") "f.txt" 3 2 "data" (fun _ => "disk busy")).1
      (by decide) (by decide) (by decide) (by decide),
    (c1_retry_read (fun _ => ReadOutcome.ioError "disk busy") "f.txt" 3 3 "data"
      (fun _ => "disk busy")).2 (by decide) (by decide)⟩

/-- C2: when the first open attempt fails with a permanent cause (file not
found, permission denied, decoding failure, or path is a directory),
read_file_with_retries raises a FileReadError carrying that specific cause
immediately: one open attempt, zero retries, zero sleeps. -/
theorem c2_permanent_immediate (oracle : Nat → ReadOutcome) (filename : String)
    (max_retries : Nat) (hmax : 1 ≤ max_retries) :
    (oracle 0 = ReadOutcome.fileNotFound →
      read_file_with_retries oracle filename max_retries =
        ⟨PyResult.error (readMsgNotFound filename), 1, 0⟩) ∧
    (oracle 0 = ReadOutcome.permissionDenied →
      read_file_with_retries oracle filename max_retries =
        ⟨PyResult.error (readMsgPermission filename), 1, 0⟩) ∧
    (oracle 0 = ReadOutcome.unicodeDecodeError →
      read_file_with_retries oracle filename max_retries =
        ⟨PyResult.error (readMsgDecode filename), 1, 0⟩) ∧
    (oracle 0 = ReadOutcome.isADirectory →
      read_file_with_retries oracle filename max_retries =
        ⟨PyResult.error (readMsgIsDir filename), 1, 0⟩) := by
  refine ⟨fun h => ?_, fun h => ?_, fun h => ?_, fun h => ?_⟩ <;>
    (unfold read_file_with_retries
     unfold read_loop
     rw [if_pos (by omega : 0 < max_retries), h])

/-- Witness for C2: a nonexistent path yields the not-found FileReadError
with a single attempt and no sleep, with the retry budget at its default. -/
theorem c2_permanent_immediate_witness :
    read_file_with_retries (fun _ => ReadOutcome.fileNotFound) "ghost.txt" 3 =
      ⟨PyResult.error (readMsgNotFound "ghost.txt"), 1, 0⟩ :=
  (c2_permanent_immediate (fun _ => ReadOutcome.fileNotFound) "ghost.txt" 3
    (by decide)).1 rfl

/-- C3 counterexample: with max_retries equal to zero the while loop never
runs and the function falls through, returning the implicit Python None,
which is neither a returned string nor a raised classified error. -/
theorem c3_counterexample :
    (read_file_with_retries (fun _ => ReadOutcome.success "data") "f.txt" 0).result =
      PyResult.noneResult := by
  unfold read_file_with_retries
  unfold read_loop
  rw [if_neg (by omega : ¬ 0 < 0)]

/-- C3 (amended to a positive attempt budget): for every oracle, filename
and max_retries of at least one, read_file_with_retries either returns the
content of the file as a string or raises a classified FileReadError; it
never falls through without a result. -/
theorem c3_total_amended (oracle : Nat → ReadOutcome) (filename : String)
    (max_retries : Nat) (hmax : 1 ≤ max_retries) :
    (read_file_with_retries oracle filename max_retries).result ≠
      PyResult.noneResult := by
  unfold read_file_with_retries
  exact read_loop_ne_none oracle filename max_retries 0 0 none (by omega)

/-- Witness for C3: the amended totality fact at a concrete oracle. -/
theorem c3_total_amended_witness :
    (read_file_with_retries (fun _ => ReadOutcome.success "data") "f.txt" 3).result ≠
      PyResult.noneResult :=
  c3_total_amended (fun _ => ReadOutcome.success "data") "f.txt" 3 (by decide)

end ErrorHandling

namespace ErrorHandling

open PyStr

theorem contains_true_iff (l : List Char) (c : Char) :
    l.contains c = true ↔ c ∈ l := by
  simp [List.contains]

theorem mem_of_pyStrip_eq_empty (s : String) (h : pyStrip s = "") :
    ∀ c ∈ s.data, isPySpace c = true := by
  have h0 : ((s.data.dropWhile isPySpace).reverse.dropWhile isPySpace).reverse = [] :=
    congrArg String.data h
  rw [List.reverse_eq_nil_iff, List.dropWhile_eq_nil_iff] at h0
  intro c hc
  have hsplit := List.takeWhile_append_dropWhile isPySpace s.data
  rw [← hsplit] at hc
  rcases List.mem_append.mp hc with h1 | h1
  · exact List.mem_takeWhile_imp h1
  · exact h0 c (List.mem_reverse.mpr h1)

theorem firstInvalidChar_eq_none (L : List Char) (f : String)
    (h : ∀ c ∈ L, f.data.contains c = false) : firstInvalidChar L f = none := by
  induction L with
  | nil => rfl
  | cons d rest ih =>
    simp only [firstInvalidChar]
    rw [h d (List.mem_cons_self d rest)]
    exact ih (fun c hc => h c (List.mem_cons_of_mem d hc))

theorem firstInvalidChar_first (pre : List Char) (c0 : Char) (post : List Char)
    (f : String) (hc0 : f.data.contains c0 = true)
    (hpre : ∀ c1 ∈ pre, f.data.contains c1 = false) :
    firstInvalidChar (pre ++ c0 :: post) f = some c0 := by
  induction pre with
  | nil =>
    simp only [List.nil_append, firstInvalidChar]
    rw [hc0]
    rfl
  | cons d rest ih =>
    simp only [List.cons_append, firstInvalidChar]
    rw [hpre d (List.mem_cons_self d rest)]
    exact ih (fun c1 hc1 => hpre c1 (List.mem_cons_of_mem d hc1))

theorem invalid_chars_not_space : ∀ c ∈ invalid_chars, isPySpace c = false := by
  decide

/-- The boolean test whether a name holds any character of the forbidden
set, used to state the counterexample for C4. -/
def containsAnyInvalid (s : String) : Bool :=
  invalid_chars.any (fun c => s.data.contains c)

/-- C4 counterexample: a name consisting of a single space is non-empty and
free of forbidden characters, yet validate_filename rejects it (it strips
to the empty string and is reported as empty). -/
theorem c4_counterexample :
    (" " : String) ≠ "" ∧ containsAnyInvalid " " = false ∧
      validate_filename " " = (false, [emptyMsg]) := by
  decide

/-- C4 (amended to names that are non-empty after stripping whitespace):
whenever c0 is the first character of the forbidden set, in its iteration
order, that occurs in the filename, validate_filename returns False and
prints the message naming c0; and for every name that is non-empty after
stripping whitespace and free of forbidden characters it returns True with
no diagnostic. -/
theorem c4_validate_amended (filename : String) :
    (∀ pre c0 post, invalid_chars = pre ++ c0 :: post →
      filename.data.contains c0 = true →
      (∀ c1 ∈ pre, filename.data.contains c1 = false) →
      validate_filename filename = (false, [invalidCharMsg c0])) ∧
    (pyStrip filename ≠ "" →
      (∀ c ∈ invalid_chars, filename.data.contains c = false) →
      validate_filename filename = (true, [])) := by
  constructor
  · intro pre c0 post hL hc0 hpre
    have hc0mem : c0 ∈ invalid_chars := by
      rw [hL]
      exact List.mem_append.mpr (Or.inr (List.mem_cons_self c0 post))
    have hstrip : pyStrip filename ≠ "" := by
      intro hstr
      have hall := mem_of_pyStrip_eq_empty filename hstr
      have hc0in : c0 ∈ filename.data := (contains_true_iff filename.data c0).mp hc0
      have h1 := hall c0 hc0in
      have h2 := invalid_chars_not_space c0 hc0mem
      rw [h1] at h2
      cases h2
    unfold validate_filename
    rw [if_neg hstrip, hL, firstInvalidChar_first pre c0 post filename hc0 hpre]
  · intro hstrip hnone
    unfold validate_filename
    rw [if_neg hstrip, firstInvalidChar_eq_none invalid_chars filename hnone]

/-- Witness for C4: a name whose first forbidden character is the less-than
sign is rejected with the message naming it, and a clean name is accepted. -/
theorem c4_validate_amended_witness :
    validate_filename "bad<name" = (false, [invalidCharMsg '<']) ∧
      validate_filename "notes.txt" = (true, []) :=
  ⟨(c4_validate_amended "bad<name").1 [] '<' ['>', ':', '"', '/', '\\', '|', '?', '*']
      (by decide) (by decide) (by decide),
    (c4_validate_amended "notes.txt").2 (by decide) (by decide)⟩

end ErrorHandling

namespace ErrorHandling

theorem data_append (a b : String) : (a ++ b).data = a.data ++ b.data := rfl

theorem head_append (a b : String) (c : Char) (h : a.data.head? = some c) :
    (a ++ b).data.head? = some c := by
  rw [data_append]
  cases hd : a.data with
  | nil => rw [hd] at h; cases h
  | cons x xs => rw [hd] at h; simpa using h

theorem ne_of_head (a b : String) (ca cb : Char) (ha : a.data.head? = some ca)
    (hb : b.data.head? = some cb) (hne : ca ≠ cb) : a ≠ b := by
  intro h
  rw [h, hb] at ha
  exact hne (Option.some.inj ha).symm

theorem msgNotExist_head (f : String) : (msgNotExist f).data.head? = some 'T' := by
  unfold msgNotExist
  exact head_append _ _ _ (head_append _ _ _ (head_append _ _ _ (head_append _ _ _
    (by decide))))

theorem msgNotFile_head (f : String) : (msgNotFile f).data.head? = some '\x27' := by
  unfold msgNotFile
  exact head_append _ _ _ (head_append _ _ _ (head_append _ _ _ (by decide)))

theorem msgNoRead_head (f : String) : (msgNoRead f).data.head? = some 'Y' := by
  unfold msgNoRead
  exact head_append _ _ _ (head_append _ _ _ (head_append _ _ _ (head_append _ _ _
    (head_append _ _ _ (by decide)))))

/-- C5: the access checker inspects the filesystem in the documented order
and short-circuits at the first failing check, with three distinct
read-mode failure messages; write mode fails on an existing path without
write permission, and on a missing path when the containing directory (the
current directory when the path has no directory part) is not writable;
otherwise it passes. The embedding of check_file_access only queries the
FileSystem record and returns a pair, so it performs no mutation. -/
theorem c5_check_access (fs : FileSystem) (filename : String) :
    (fs.path_exists filename = false →
      check_file_access fs filename "r" = (false, msgNotExist filename)) ∧
    (fs.path_exists filename = true → fs.isfile filename = false →
      check_file_access fs filename "r" = (false, msgNotFile filename)) ∧
    (fs.path_exists filename = true → fs.isfile filename = true →
      fs.access_read filename = false →
      check_file_access fs filename "r" = (false, msgNoRead filename)) ∧
    (fs.path_exists filename = true → fs.isfile filename = true →
      fs.access_read filename = true →
      check_file_access fs filename "r" = (true, msgPass)) ∧
    (msgNotExist filename ≠ msgNotFile filename ∧
      msgNotExist filename ≠ msgNoRead filename ∧
      msgNotFile filename ≠ msgNoRead filename) ∧
    (fs.path_exists filename = true → fs.access_write filename = false →
      check_file_access fs filename "w" = (false, msgNoWrite filename)) ∧
    (fs.path_exists filename = true → fs.access_write filename = true →
      check_file_access fs filename "w" = (true, msgPass)) ∧
    (fs.path_exists filename = false →
      fs.access_write (if dirname filename = "" then "." else dirname filename) =
        false →
      check_file_access fs filename "w" = (false, msgNoWriteDir filename)) ∧
    (fs.path_exists filename = false →
      fs.access_write (if dirname filename = "" then "." else dirname filename) =
        true →
      check_file_access fs filename "w" = (true, msgPass)) := by
  refine ⟨fun h1 => ?_, fun h1 h2 => ?_, fun h1 h2 h3 => ?_, fun h1 h2 h3 => ?_,
    ⟨ne_of_head _ _ 'T' '\x27' (msgNotExist_head filename)
        (msgNotFile_head filename) (by decide),
      ne_of_head _ _ 'T' 'Y' (msgNotExist_head filename)
        (msgNoRead_head filename) (by decide),
      ne_of_head _ _ '\x27' 'Y' (msgNotFile_head filename)
        (msgNoRead_head filename) (by decide)⟩,
    fun h1 h2 => ?_, fun h1 h2 => ?_, fun h1 h2 => ?_, fun h1 h2 => ?_⟩
  · unfold check_file_access
    rw [if_pos rfl, if_pos (by simp [h1])]
  · unfold check_file_access
    rw [if_pos rfl, if_neg (by simp [h1]), if_pos (by simp [h2])]
  · unfold check_file_access
    rw [if_pos rfl, if_neg (by simp [h1]), if_neg (by simp [h2]),
      if_pos (by simp [h3])]
  · unfold check_file_access
    rw [if_pos rfl, if_neg (by simp [h1]), if_neg (by simp [h2]),
      if_neg (by simp [h3])]
  · unfold check_file_access
    rw [if_neg (by decide : ¬ ("w" : String) = "r"), if_pos rfl,
      if_pos (by simp [h1]), if_pos (by simp [h2])]
  · unfold check_file_access
    rw [if_neg (by decide : ¬ ("w" : String) = "r"), if_pos rfl,
      if_pos (by simp [h1]), if_neg (by simp [h2])]
  · unfold check_file_access
    rw [if_neg (by decide : ¬ ("w" : String) = "r"), if_pos rfl,
      if_neg (by simp [h1]), if_pos (by simp [h2])]
  · unfold check_file_access
    rw [if_neg (by decide : ¬ ("w" : String) = "r"), if_pos rfl,
      if_neg (by simp [h1]), if_neg (by simp [h2])]

/-- Witness for C5: on a filesystem with no entries, a read-mode check
fails with the does-not-exist message, and a write-mode check on a missing
path in a non-writable current directory fails with the directory message. -/
theorem c5_check_access_witness :
    check_file_access ⟨fun _ => false, fun _ => false, fun _ => false, fun _ => false⟩
        "data.txt" "r" = (false, msgNotExist "data.txt") ∧
    check_file_access ⟨fun _ => false, fun _ => false, fun _ => false, fun _ => false⟩
        "data.txt" "w" = (false, msgNoWriteDir "data.txt") :=
  ⟨(c5_check_access
      ⟨fun _ => false, fun _ => false, fun _ => false, fun _ => false⟩ "data.txt").1
      rfl,
    (c5_check_access
      ⟨fun _ => false, fun _ => false, fun _ => false, fun _ => false⟩
      "data.txt").2.2.2.2.2.2.2.1 rfl rfl⟩

/-- C10: for any mode other than r and w, check_file_access passes
vacuously, returning the fixed success pair for every filename, and its
result does not depend on the filesystem at all. -/
theorem c10_unknown_mode (fs fs2 : FileSystem) (filename mode : String)
    (h1 : mode ≠ "r") (h2 : mode ≠ "w") :
    check_file_access fs filename mode = (true, msgPass) ∧
    check_file_access fs filename mode = check_file_access fs2 filename mode := by
  constructor
  · unfold check_file_access
    rw [if_neg h1, if_neg h2]
  · unfold check_file_access
    rw [if_neg h1, if_neg h2, if_neg h1, if_neg h2]

/-- Witness for C10: mode x passes on an empty filesystem and agrees with
the result on a full one. -/
theorem c10_unknown_mode_witness :
    check_file_access ⟨fun _ => false, fun _ => false, fun _ => false, fun _ => false⟩
        "any.txt" "x" = (true, msgPass) ∧
    check_file_access ⟨fun _ => false, fun _ => false, fun _ => false, fun _ => false⟩
        "any.txt" "x" =
      check_file_access ⟨fun _ => true, fun _ => true, fun _ => true, fun _ => true⟩
        "any.txt" "x" :=
  c10_unknown_mode ⟨fun _ => false, fun _ => false, fun _ => false, fun _ => false⟩
    ⟨fun _ => true, fun _ => true, fun _ => true, fun _ => true⟩ "any.txt" "x"
    (by decide) (by decide)

end ErrorHandling

namespace ReadWrite

open PyStr

theorem joinWithChar_eq_nil (sep : Char) (ll : List (List Char))
    (h : joinWithChar sep ll = []) : ll = [] ∨ ll = [[]] := by
  match ll with
  | [] => exact Or.inl rfl
  | [l] =>
    simp only [joinWithChar] at h
    exact Or.inr (by rw [h])
  | l :: l2 :: ls =>
    exfalso
    simp only [joinWithChar] at h
    rcases List.append_eq_nil.mp h with ⟨h1, h2⟩
    cases h2

theorem data_eq_nil_iff (s : String) : s.data = [] ↔ s = "" := by
  cases s with
  | mk d =>
    constructor
    · intro h
      exact congrArg String.mk (h : d = [])
    · intro h
      rw [h]

theorem modify_reverse (s : String) (hs : ¬ s = "") :
    modify_content s "reverse_lines" =
      String.mk (joinWithChar '\n' ((splitOnChar '\n' s.data).reverse)) := by
  unfold modify_content
  rw [if_neg hs, if_neg (by decide : ¬ ("reverse_lines" : String) = "uppercase"),
    if_neg (by decide : ¬ ("reverse_lines" : String) = "lowercase"),
    if_neg (by decide : ¬ ("reverse_lines" : String) = "capitalize_lines"),
    if_pos (rfl : ("reverse_lines" : String) = "reverse_lines")]

theorem reverse_join_ne_empty (s : String) (hs : ¬ s = "") :
    ¬ String.mk (joinWithChar '\n' ((splitOnChar '\n' s.data).reverse)) = "" := by
  intro h
  have hdata : joinWithChar '\n' ((splitOnChar '\n' s.data).reverse) = [] :=
    congrArg String.data h
  rcases joinWithChar_eq_nil '\n' _ hdata with h1 | h1
  · exact splitOnChar_ne_nil '\n' s.data (List.reverse_eq_nil_iff.mp h1)
  · have h2 : splitOnChar '\n' s.data = [[]] := by
      have h3 := congrArg List.reverse h1
      rw [List.reverse_reverse] at h3
      simpa using h3
    exact hs ((data_eq_nil_iff s).mp (splitOnChar_eq_nil_singleton '\n' s.data h2))

/-- C6: modify_content is a total function; on any kind other than the four
recognized ones it produces the same result as the uppercase transformation,
and on empty content it returns the empty string whatever the kind. -/
theorem c6_modify_total (content kind : String) :
    (¬ kind = "uppercase" → ¬ kind = "lowercase" → ¬ kind = "capitalize_lines" →
      ¬ kind = "reverse_lines" →
      modify_content content kind = modify_content content "uppercase") ∧
    modify_content "" kind = "" := by
  constructor
  · intro h1 h2 h3 h4
    unfold modify_content
    rw [if_neg h1, if_neg h2, if_neg h3, if_neg h4]
    by_cases hc : content = ""
    · rw [if_pos hc, if_pos hc]
    · rw [if_neg hc, if_neg hc, if_pos (rfl : ("uppercase" : String) = "uppercase")]
  · unfold modify_content
    rw [if_pos rfl]

/-- Witness for C6: an unrecognized kind behaves like uppercase, and empty
content maps to empty output. -/
theorem c6_modify_total_witness :
    modify_content "hello" "rot13" = modify_content "hello" "uppercase" ∧
      modify_content "" "rot13" = "" :=
  ⟨(c6_modify_total "hello" "rot13").1 (by decide) (by decide) (by decide)
      (by decide),
    (c6_modify_total "hello" "rot13").2⟩

/-- C7: applying the reverse_lines transformation twice restores any
content: modify_content is an involution at kind reverse_lines. -/
theorem c7_reverse_involutive (s : String) :
    modify_content (modify_content s "reverse_lines") "reverse_lines" = s := by
  by_cases hs : s = ""
  · rw [hs]
    rfl
  · rw [modify_reverse s hs, modify_reverse _ (reverse_join_ne_empty s hs)]
    have hdata :
        (String.mk (joinWithChar '\n' ((splitOnChar '\n' s.data).reverse))).data =
          joinWithChar '\n' ((splitOnChar '\n' s.data).reverse) := rfl
    rw [hdata]
    rw [splitOnChar_joinWithChar '\n' ((splitOnChar '\n' s.data).reverse)
      (fun a ha => not_mem_of_mem_splitOnChar '\n' s.data a (List.mem_reverse.mp ha))
      (by simp [splitOnChar_ne_nil])]
    rw [List.reverse_reverse, joinWithChar_splitOnChar]

/-- C8: in the Read and Write Challenge flow, when the input read succeeds,
the output path already exists and the user answer to the overwrite prompt
is not y, main performs no write_file call and leaves the world unchanged. -/
theorem c8_cancel_no_write (w : World)
    (input_filename choice output_filename overwrite content : String)
    (h1 : read_file w input_filename = some content)
    (h2 : w.path_exists output_filename = true)
    (h3 : pyLower overwrite ≠ "y") :
    main w input_filename choice output_filename overwrite = (w, []) := by
  unfold main
  rw [h1]
  show (if w.path_exists output_filename ∧ pyLower overwrite ≠ "y" then
      (w, ([] : List (String × String)))
    else
      ((write_file w output_filename
          (modify_content content (get_modification_choice choice))).1,
        [(output_filename,
          modify_content content (get_modification_choice choice))])) = (w, [])
  rw [if_pos (And.intro (by rw [h2]) h3)]

/-- Witness for C8: with an existing output file and answer n, the world is
returned unchanged and the write log is empty. -/
theorem c8_cancel_no_write_witness :
    main ⟨fun _ => ReadFileOutcome.ok "hello", fun _ => true, fun _ => WriteOutcome.ok,
        fun _ => some "old"⟩ "in.txt" "1" "out.txt" "n" =
      (⟨fun _ => ReadFileOutcome.ok "hello", fun _ => true, fun _ => WriteOutcome.ok,
        fun _ => some "old"⟩, []) :=
  c8_cancel_no_write
    ⟨fun _ => ReadFileOutcome.ok "hello", fun _ => true, fun _ => WriteOutcome.ok,
      fun _ => some "old"⟩ "in.txt" "1" "out.txt" "n" "hello" rfl rfl (by decide)

/-- C9: write_file returns True exactly when the write succeeds; on success
it creates or overwrites the target with the content and prints nothing; on
permission failure or any other write-time error it leaves the world
unchanged, prints the corresponding diagnostic and returns False instead of
raising. -/
theorem c9_write_file_contract (w : World) (filename content : String) :
    ((write_file w filename content).2.1 = true ↔
      w.writeOutcome filename = WriteOutcome.ok) ∧
    (w.writeOutcome filename = WriteOutcome.ok →
      write_file w filename content =
        ({ w with
            files := fun n => if n = filename then some content else w.files n,
            path_exists := fun n => if n = filename then true else w.path_exists n },
          true, none)) ∧
    (w.writeOutcome filename = WriteOutcome.permissionError →
      write_file w filename content = (w, false, some (writeMsgPermission filename))) ∧
    (∀ m, w.writeOutcome filename = WriteOutcome.otherError m →
      write_file w filename content = (w, false, some (writeMsgUnexpected filename m))) := by
  cases hout : w.writeOutcome filename with
  | ok =>
    refine ⟨⟨fun _ => rfl, fun _ => ?_⟩, fun _ => ?_, fun h => ?_, fun m h => ?_⟩
    · unfold write_file
      rw [hout]
    · unfold write_file
      rw [hout]
    · cases h
    · cases h
  | permissionError =>
    refine ⟨⟨fun hb => ?_, fun h => ?_⟩, fun h => ?_, fun _ => ?_, fun m h => ?_⟩
    · exfalso
      unfold write_file at hb
      rw [hout] at hb
      simp at hb
    · cases h
    · cases h
    · unfold write_file
      rw [hout]
    · cases h
  | otherError mm =>
    refine ⟨⟨fun hb => ?_, fun h => ?_⟩, fun h => ?_, fun h => ?_, fun m h => ?_⟩
    · exfalso
      unfold write_file at hb
      rw [hout] at hb
      simp at hb
    · cases h
    · cases h
    · cases h
    · injection h with hm
      subst hm
      unfold write_file
      rw [hout]

/-- Witness for C9: a write denied by permissions returns False with the
permission diagnostic and an unchanged world. -/
theorem c9_write_file_contract_witness :
    write_file ⟨fun _ => ReadFileOutcome.ok "", fun _ => false,
        fun _ => WriteOutcome.permissionError, fun _ => none⟩ "out.txt" "abc" =
      (⟨fun _ => ReadFileOutcome.ok "", fun _ => false,
        fun _ => WriteOutcome.permissionError, fun _ => none⟩, false,
        some (writeMsgPermission "out.txt")) :=
  (c9_write_file_contract
    ⟨fun _ => ReadFileOutcome.ok "", fun _ => false,
      fun _ => WriteOutcome.permissionError, fun _ => none⟩ "out.txt" "abc").2.2.1 rfl

end ReadWrite
